import Mathlib

set_option autoImplicit false

/-!
# Invoice-generator backend: verification of the upload and credential logic

A shallow embedding of the two backend modules of the invoice-generator
repository (`backend/server.py` and `backend/drive_service.py`), together
with theorems about filename derivation, credential resolution, upload
orchestration, configuration persistence and temp-file housekeeping.

Python strings are modelled as `List Char` (sequences of Unicode code
points); Python dicts as association lists; the filesystem, environment
and the remote provider as explicit world records consumed by the
embedded functions.
-/

namespace InvoiceGen

/-! ## Character classes (Python regular expressions `\w` and `\s`)

`server.py` sanitises the buyer name with `re.sub(r'[^\w\s-]', '', ...)`
and `re.sub(r'\s+', '_', ...)`.  Python 3 regular expressions are
Unicode-aware by default, so `\w` matches any Unicode word character
(letters including accented ones, digits, underscore) and `\s` any
Unicode whitespace.  The predicates below implement those classes
exactly on the Basic Latin and Latin-1 Supplement blocks
(U+0000..U+00FF), the only range exercised by any theorem in this file.
-/

/-- Python regex class `\w` (Unicode word character) on U+0000..U+00FF:
ASCII alphanumerics and underscore, the Latin-1 letters ª µ º and the
ranges À..ÿ minus × and ÷, and the numeric characters ² ³ ¹ ¼ ½ ¾. -/
def pyIsWordChar (c : Char) : Bool :=
  c.isAlphanum || c == '_'
    || c.toNat == 0xAA || c.toNat == 0xB5 || c.toNat == 0xBA
    || c.toNat == 0xB2 || c.toNat == 0xB3 || c.toNat == 0xB9
    || c.toNat == 0xBC || c.toNat == 0xBD || c.toNat == 0xBE
    || (decide (0xC0 ≤ c.toNat) && decide (c.toNat ≤ 0xFF)
        && !(c.toNat == 0xD7) && !(c.toNat == 0xF7))

/-- Python regex class `\s` (Unicode whitespace) on U+0000..U+00FF:
space, TAB LF VT FF CR (U+0009..U+000D), the separators U+001C..U+001F,
NEL (U+0085) and NBSP (U+00A0).  `str.strip()` uses the same set on
this range. -/
def pyIsSpaceChar (c : Char) : Bool :=
  c == ' ' || (decide (9 ≤ c.toNat) && decide (c.toNat ≤ 13))
    || (decide (0x1C ≤ c.toNat) && decide (c.toNat ≤ 0x1F))
    || c.toNat == 0x85 || c.toNat == 0xA0

/-! ## Filename derivation (`server.py`, `upload_to_drive`, base64 branch)

```python
clean_buyer_name = re.sub(r'[^\w\s-]', '', buyer_name)
clean_buyer_name = re.sub(r'\s+', '_', clean_buyer_name.strip())
file_extension = filename.split('.')[-1] if '.' in filename else 'pdf'
custom_filename = f"{clean_buyer_name}_(Invoice_{invoice_no}).{file_extension}"
```
-/

/-- A character survives `re.sub(r'[^\w\s-]', '', ...)` iff it is a word
character, whitespace, or a hyphen. -/
def keepChar (c : Char) : Bool :=
  pyIsWordChar c || pyIsSpaceChar c || c == '-'

/-- Python `str.strip()`: drop leading and trailing whitespace. -/
def pyStrip (l : List Char) : List Char :=
  ((l.dropWhile pyIsSpaceChar).reverse.dropWhile pyIsSpaceChar).reverse

/-- Worker for `re.sub(r'\s+', '_', ...)`: replace every maximal run of
whitespace by a single underscore.  The flag records whether the
previous character belonged to a whitespace run already replaced. -/
def collapseSpacesAux : Bool → List Char → List Char
  | _, [] => []
  | prevSpace, c :: cs =>
    if pyIsSpaceChar c then
      if prevSpace then collapseSpacesAux true cs
      else '_' :: collapseSpacesAux true cs
    else c :: collapseSpacesAux false cs

/-- `re.sub(r'\s+', '_', ...)`. -/
def collapseSpaces (l : List Char) : List Char :=
  collapseSpacesAux false l

/-- The two sanitisation steps applied to the buyer name in
`upload_to_drive`. -/
def cleanBuyerName (buyerName : List Char) : List Char :=
  collapseSpaces (pyStrip (buyerName.filter keepChar))

/-- Python `str.split('.')`: the list of fields between the dots
(`"".split('.') == ['']`, `"a.".split('.') == ['a', '']`). -/
def splitDot : List Char → List (List Char)
  | [] => [[]]
  | c :: cs =>
    match splitDot cs with
    | [] => [[]]
    | h :: t => if c == '.' then [] :: h :: t else (c :: h) :: t

/-- `filename.split('.')[-1] if '.' in filename else 'pdf'`. -/
def extOf (filename : List Char) : List Char :=
  if filename.contains '.' then (splitDot filename).getLastD []
  else "pdf".toList

/-- `f"{clean_buyer_name}_(Invoice_{invoice_no}).{file_extension}"`. -/
def customFilename (buyerName invoiceNo filename : List Char) : List Char :=
  cleanBuyerName buyerName ++ "_(Invoice_".toList ++ invoiceNo
    ++ ").".toList ++ extOf filename

/-- Spec-side reading of the implicit extension rule: the substring
after the last `'.'` of the filename. -/
def suffixAfterLastDot (l : List Char) : List Char :=
  (l.reverse.takeWhile (fun c => c != '.')).reverse

/-! ### Lemmas about the sanitiser and the extension split -/

theorem mem_collapseSpacesAux {c : Char} :
    ∀ (b : Bool) (m : List Char), c ∈ collapseSpacesAux b m →
      c = '_' ∨ (c ∈ m ∧ pyIsSpaceChar c = false) := by
  intro b m
  induction m generalizing b with
  | nil => intro h; simp [collapseSpacesAux] at h
  | cons x xs ih =>
    intro h
    by_cases hx : pyIsSpaceChar x
    · simp only [collapseSpacesAux, hx, if_true] at h
      by_cases hb : b
      · subst hb
        simp only [if_true] at h
        rcases ih true h with h1 | ⟨h2, h3⟩
        · exact Or.inl h1
        · exact Or.inr ⟨List.mem_cons_of_mem _ h2, h3⟩
      · simp only [hb, Bool.false_eq_true, if_false, List.mem_cons] at h
        rcases h with he | hm
        · exact Or.inl he
        · rcases ih true hm with h1 | ⟨h2, h3⟩
          · exact Or.inl h1
          · exact Or.inr ⟨List.mem_cons_of_mem _ h2, h3⟩
    · simp only [collapseSpacesAux, hx, Bool.false_eq_true, if_false,
        List.mem_cons] at h
      rcases h with he | hm
      · subst he
        exact Or.inr ⟨List.mem_cons_self _ _, by simpa using hx⟩
      · rcases ih false hm with h1 | ⟨h2, h3⟩
        · exact Or.inl h1
        · exact Or.inr ⟨List.mem_cons_of_mem _ h2, h3⟩

theorem mem_pyStrip {c : Char} {l : List Char} (h : c ∈ pyStrip l) : c ∈ l := by
  unfold pyStrip at h
  rw [List.mem_reverse] at h
  have h1 := (List.dropWhile_sublist (l := (l.dropWhile pyIsSpaceChar).reverse)
    (p := pyIsSpaceChar)).mem h
  rw [List.mem_reverse] at h1
  exact (List.dropWhile_sublist (l := l) (p := pyIsSpaceChar)).mem h1

theorem mem_cleanBuyerName {c : Char} {buyerName : List Char}
    (h : c ∈ cleanBuyerName buyerName) : (pyIsWordChar c || c == '-') = true := by
  rcases mem_collapseSpacesAux false _ h with h1 | ⟨h2, h3⟩
  · subst h1; decide
  · have h4 := mem_pyStrip h2
    have h5 := (List.mem_filter.mp h4).2
    unfold keepChar at h5
    simp only [Bool.or_eq_true] at h5 ⊢
    rcases h5 with (hw | hs) | hh
    · exact Or.inl hw
    · rw [hs] at h3; cases h3
    · exact Or.inr hh

theorem splitDot_cons (c : Char) (cs : List Char) :
    splitDot (c :: cs) =
      match splitDot cs with
      | [] => [[]]
      | h :: t => if c == '.' then [] :: h :: t else (c :: h) :: t := rfl

theorem splitDot_ne_nil : ∀ l : List Char, splitDot l ≠ [] := by
  intro l
  cases l with
  | nil => simp [splitDot]
  | cons c cs =>
    rw [splitDot_cons]
    cases h : splitDot cs with
    | nil => simp
    | cons h1 t1 => by_cases hc : c == '.' <;> simp [hc]

theorem splitDot_append_dot (xs : List Char) :
    splitDot (xs ++ ['.']) = splitDot xs ++ [[]] := by
  induction xs with
  | nil => rfl
  | cons x rest ih =>
    cases h : splitDot rest with
    | nil => exact absurd h (splitDot_ne_nil rest)
    | cons h1 t1 =>
      have hr : splitDot (rest ++ ['.']) = h1 :: (t1 ++ [[]]) := by
        rw [ih, h]; rfl
      rw [List.cons_append, splitDot_cons, hr, splitDot_cons, h]
      by_cases hx : x == '.' <;> simp [hx]

theorem splitDot_append_nonDot (xs : List Char) {c : Char} (hc : (c == '.') = false) :
    splitDot (xs ++ [c]) =
      (splitDot xs).dropLast ++ [(splitDot xs).getLastD [] ++ [c]] := by
  induction xs with
  | nil => simp [splitDot, hc]
  | cons x rest ih =>
    cases h : splitDot rest with
    | nil => exact absurd h (splitDot_ne_nil rest)
    | cons h1 t1 =>
      cases t1 with
      | nil =>
        have hr : splitDot (rest ++ [c]) = [h1 ++ [c]] := by
          rw [ih, h]; rfl
        rw [List.cons_append, splitDot_cons, hr, splitDot_cons, h]
        by_cases hx : x == '.' <;> simp [hx]
      | cons a t2 =>
        have hr : splitDot (rest ++ [c]) =
            h1 :: ((a :: t2).dropLast ++ [(a :: t2).getLastD [] ++ [c]]) := by
          rw [ih, h]
          simp [List.getLastD_cons]
        rw [List.cons_append, splitDot_cons, hr, splitDot_cons, h]
        by_cases hx : x == '.' <;> simp [hx, List.getLastD_cons]

theorem splitDot_getLastD (l : List Char) :
    (splitDot l).getLastD [] = suffixAfterLastDot l := by
  induction l using List.reverseRecOn with
  | nil => rfl
  | append_singleton xs c ih =>
    by_cases hc : c == '.'
    · have hc2 : c = '.' := by simpa using hc
      subst hc2
      rw [splitDot_append_dot]
      simp [suffixAfterLastDot, List.getLastD_concat]
    · rw [splitDot_append_nonDot xs (by simpa using hc)]
      have hcc : (c != '.') = true := by simp [bne]; simpa using hc
      simp only [suffixAfterLastDot, List.reverse_append, List.reverse_cons,
        List.reverse_nil, List.nil_append, List.singleton_append,
        List.takeWhile_cons, hcc, if_true]
      simp only [List.getLastD_concat, List.reverse_cons]
      rw [ih]
      rfl

/-! ### Claim theorems: filename derivation -/

/-- C1, counterexample: the derivation is Unicode-aware, so the `ç` of
`"Açme Corp!"` is a word character and is kept; the derived name is not
`"Acme_Corp_(Invoice_7).pdf"`. -/
theorem c1_counterexample :
    customFilename "Açme Corp!".toList "7".toList "invoice.pdf".toList
      ≠ "Acme_Corp_(Invoice_7).pdf".toList := by decide

/-- C1 (amended): filename derivation for a base64 upload is the pure
function `<sanitized buyer name>_(Invoice_<invoice number>).<original
extension>`, where sanitization strips every character outside word
characters (Unicode letters — accented letters such as `ç` included —
digits, underscore), hyphen and whitespace, then trims and collapses
whitespace runs to single underscores; every character of the sanitized
name is a word character or a hyphen, and
`derive("Açme Corp!", "7")` with extension `pdf` equals
`"Açme_Corp_(Invoice_7).pdf"`. -/
theorem c1_filename_derivation :
    (∀ (buyerName : List Char) (c : Char), c ∈ cleanBuyerName buyerName →
      (pyIsWordChar c || c == '-') = true) ∧
    customFilename "Açme Corp!".toList "7".toList "invoice.pdf".toList
      = "Açme_Corp_(Invoice_7).pdf".toList :=
  ⟨fun _ _ h => mem_cleanBuyerName h, by decide⟩

/-- Witness for C1 at the concrete buyer name `"Açme Corp!"` and its
first sanitized character `'A'`. -/
theorem c1_filename_derivation_witness :
    (pyIsWordChar 'A' || 'A' == '-') = true :=
  c1_filename_derivation.1 "Açme Corp!".toList 'A' (by decide)

/-- C10: in the base64 upload path, a filename without `'.'` gets
extension `pdf`, and a filename with at least one `'.'` gets the
substring after its last `'.'`. -/
theorem c10_extension_rule (filename : List Char) :
    (filename.contains '.' = false → extOf filename = "pdf".toList) ∧
    (filename.contains '.' = true →
      extOf filename = suffixAfterLastDot filename) := by
  constructor
  · intro h
    unfold extOf
    rw [h]
    simp
  · intro h
    unfold extOf
    rw [h]
    simpa using splitDot_getLastD filename

/-- Witness for C10 at the filenames `"invoice"` (no dot) and
`"report.v2.pdf"` (two dots). -/
theorem c10_extension_rule_witness :
    extOf "invoice".toList = "pdf".toList ∧
    extOf "report.v2.pdf".toList = suffixAfterLastDot "report.v2.pdf".toList :=
  ⟨(c10_extension_rule "invoice".toList).1 (by decide),
   (c10_extension_rule "report.v2.pdf".toList).2 (by decide)⟩

/-! ## JSON configuration (`drive_service.py`, `load_config` / `update_config`)

The config file `backend/config/drive_config.json` is a flat JSON
object; `load_config` returns its parse (or a default record, also
written to disk, when the file is missing, or just the default on a
read error), and `update_config` merges its argument into the
in-memory dict with Python `dict.update` and rewrites the whole file.
Dicts are modelled as association lists in insertion order; values are
the strings and booleans the config holds.
-/

/-- A JSON value of the configuration record. -/
inductive JVal where
  | str (s : String)
  | bool (b : Bool)
deriving DecidableEq, Repr

abbrev Dict (α : Type) : Type := List (String × α)

/-- First-match association-list lookup (`d[k]` / `d.get(k)`). -/
def dlookup {α : Type} (k : String) : Dict α → Option α
  | [] => none
  | (k2, v) :: rest => if k2 = k then some v else dlookup k rest

/-- Python `d[k] = v`: replace the value in place when the key is
present, else append the pair at the end (insertion order). -/
def setKey {α : Type} : Dict α → String → α → Dict α
  | [], k, v => [(k, v)]
  | (k2, v2) :: rest, k, v =>
    if k2 = k then (k2, v) :: rest else (k2, v2) :: setKey rest k v

/-- Python `d.update(new)`: assign every pair of `new`, in order. -/
def dictUpdate {α : Type} (d new : Dict α) : Dict α :=
  new.foldl (fun acc p => setKey acc p.1 p.2) d

def keys {α : Type} (d : Dict α) : List String := d.map Prod.fst

/-- Every key of `d` is also a key of `e`. -/
def keysSub {α : Type} (d e : Dict α) : Bool :=
  (keys d).all (fun k => (dlookup k e).isSome)

/-- The `default_config` record of `load_config`. -/
def default_config : Dict JVal :=
  [("folder_id", JVal.str ""), ("auto_upload", JVal.bool true),
   ("delete_after_upload", JVal.bool false)]

/-- `load_config`: the parsed file when it exists and reads cleanly,
otherwise the default record (which, on the missing-file path, is also
written out — a filesystem effect with no bearing on the value). -/
def load_config (file : Option (Dict JVal)) (readOk : Bool) : Dict JVal :=
  match file with
  | some d => if readOk then d else default_config
  | none => default_config

/-- In-memory configuration dict plus the persisted file contents. -/
structure ConfigState where
  config : Dict JVal
  file : Option (Dict JVal)

/-- `update_config(new_config)`: merge into `self.config` with
`dict.update`, then rewrite the whole JSON file and return `True`; a
failing write is caught and reported as `False` (the in-memory merge
has already happened by then). -/
def update_config (st : ConfigState) (new_config : Dict JVal) (writeOk : Bool) :
    ConfigState × Bool :=
  let merged := dictUpdate st.config new_config
  if writeOk then ({ config := merged, file := some merged }, true)
  else ({ config := merged, file := st.file }, false)

/-! ### Lemmas about `dict.update` -/

theorem dlookup_setKey_self {α : Type} (d : Dict α) (k : String) (v : α) :
    dlookup k (setKey d k v) = some v := by
  induction d with
  | nil => simp [setKey, dlookup]
  | cons p rest ih =>
    obtain ⟨k2, v2⟩ := p
    by_cases h : k2 = k
    · simp [setKey, dlookup, h]
    · simp [setKey, dlookup, h, ih]

theorem dlookup_setKey_ne {α : Type} (d : Dict α) {k k2 : String} (v : α)
    (h : k2 ≠ k) : dlookup k (setKey d k2 v) = dlookup k d := by
  induction d with
  | nil => simp [setKey, dlookup, h]
  | cons p rest ih =>
    obtain ⟨k3, v3⟩ := p
    by_cases h3 : k3 = k2
    · subst h3
      simp [setKey, dlookup, h]
    · by_cases h4 : k3 = k <;> simp [setKey, dlookup, h3, h4, ih, Ne.symm h]

theorem dlookup_isSome_iff_mem_keys {α : Type} (d : Dict α) (k : String) :
    (dlookup k d).isSome = true ↔ k ∈ keys d := by
  induction d with
  | nil => simp [dlookup, keys]
  | cons p rest ih =>
    obtain ⟨k2, v2⟩ := p
    by_cases h : k2 = k
    · simp [dlookup, keys, h]
    · simp only [dlookup, keys, h, if_false, List.map_cons, List.mem_cons]
      rw [ih]
      constructor
      · exact fun hm => Or.inr hm
      · rintro (he | hm)
        · exact absurd he.symm h
        · exact hm

theorem dlookup_dictUpdate {α : Type} (new : Dict α) (hn : (keys new).Nodup) :
    ∀ (d : Dict α) (k : String),
      dlookup k (dictUpdate d new) =
        match dlookup k new with
        | some v => some v
        | none => dlookup k d := by
  induction new with
  | nil => intro d k; simp [dictUpdate, dlookup]
  | cons p rest ih =>
    intro d k
    obtain ⟨k1, v1⟩ := p
    have hcons : k1 ∉ keys rest ∧ (keys rest).Nodup := by
      unfold keys at hn
      rw [List.map_cons, List.nodup_cons] at hn
      exact hn
    have hn1 : k1 ∉ keys rest := hcons.1
    have hn2 : (keys rest).Nodup := hcons.2
    have hstep : dictUpdate d ((k1, v1) :: rest) = dictUpdate (setKey d k1 v1) rest := rfl
    rw [hstep, ih hn2]
    by_cases h : k1 = k
    · subst h
      have hr : dlookup k1 rest = none := by
        cases ho : dlookup k1 rest with
        | none => rfl
        | some v =>
          exact absurd ((dlookup_isSome_iff_mem_keys rest k1).mp (by simp [ho])) hn1
      simp [dlookup, hr, dlookup_setKey_self]
    · simp [dlookup, h, dlookup_setKey_ne d v1 h]

/-! ### Claim theorems: configuration persistence -/

/-- C7: updating the persisted Config with a full config record `cfg`
(its keys cover the current in-memory record) and then loading the file
back returns a record equal, key by key, to `cfg`
(`load(save(cfg)) == cfg`). -/
theorem c7_config_round_trip (st : ConfigState) (cfg : Dict JVal)
    (hkeys : keysSub st.config cfg = true) (hnodup : (keys cfg).Nodup) :
    ∀ k, dlookup k (load_config (update_config st cfg true).1.file true)
      = dlookup k cfg := by
  intro k
  have hfile : (update_config st cfg true).1.file
      = some (dictUpdate st.config cfg) := rfl
  rw [hfile]
  show dlookup k (dictUpdate st.config cfg) = dlookup k cfg
  rw [dlookup_dictUpdate cfg hnodup st.config k]
  cases hc : dlookup k cfg with
  | some v => rfl
  | none =>
    cases hd : dlookup k st.config with
    | none => rfl
    | some w =>
      have hmem : k ∈ keys st.config :=
        (dlookup_isSome_iff_mem_keys st.config k).mp (by simp [hd])
      have hsub := List.all_eq_true.mp hkeys k hmem
      rw [hc] at hsub
      cases hsub

/-- Witness for C7: the default on-disk state updated with a full
three-field record, looked up at `auto_upload`. -/
theorem c7_config_round_trip_witness :
    dlookup "auto_upload"
        (load_config
          (update_config { config := default_config, file := some default_config }
            [("folder_id", JVal.str "abc"), ("auto_upload", JVal.bool false),
             ("delete_after_upload", JVal.bool true)] true).1.file true)
      = dlookup "auto_upload"
          [("folder_id", JVal.str "abc"), ("auto_upload", JVal.bool false),
           ("delete_after_upload", JVal.bool true)] :=
  c7_config_round_trip
    { config := default_config, file := some default_config }
    [("folder_id", JVal.str "abc"), ("auto_upload", JVal.bool false),
     ("delete_after_upload", JVal.bool true)]
    (by decide) (by decide) "auto_upload"

/-- C9: `update_config` merges rather than replaces — the rewritten
file is the `dict.update` merge, in which every key of `new_config`
carries the new value and every other key keeps the value of the
previous in-memory record. -/
theorem c9_update_config_merges (st : ConfigState) (new_config : Dict JVal)
    (hnodup : (keys new_config).Nodup) :
    (update_config st new_config true).1.file
        = some (dictUpdate st.config new_config) ∧
    (∀ k, k ∈ keys new_config →
      dlookup k (dictUpdate st.config new_config) = dlookup k new_config) ∧
    (∀ k, k ∉ keys new_config →
      dlookup k (dictUpdate st.config new_config) = dlookup k st.config) := by
  refine ⟨rfl, ?_, ?_⟩
  · intro k hk
    rw [dlookup_dictUpdate new_config hnodup st.config k]
    cases hc : dlookup k new_config with
    | some v => rfl
    | none =>
      have := (dlookup_isSome_iff_mem_keys new_config k).mpr hk
      rw [hc] at this
      cases this
  · intro k hk
    rw [dlookup_dictUpdate new_config hnodup st.config k]
    cases hc : dlookup k new_config with
    | some v =>
      have := (dlookup_isSome_iff_mem_keys new_config k).mp (by simp [hc])
      exact absurd this hk
    | none => rfl

/-- Witness for C9: a partial update carrying only `folder_id`; the
absent key `delete_after_upload` keeps its previous value. -/
theorem c9_update_config_merges_witness :
    dlookup "folder_id" (dictUpdate default_config [("folder_id", JVal.str "X")])
      = dlookup "folder_id" [("folder_id", JVal.str "X")] ∧
    dlookup "delete_after_upload"
        (dictUpdate default_config [("folder_id", JVal.str "X")])
      = dlookup "delete_after_upload" default_config :=
  ⟨(c9_update_config_merges { config := default_config, file := none }
      [("folder_id", JVal.str "X")] (by decide)).2.1 "folder_id" (by decide),
   (c9_update_config_merges { config := default_config, file := none }
      [("folder_id", JVal.str "X")] (by decide)).2.2 "delete_after_upload"
      (by decide)⟩

/-! ## Credential resolution (`drive_service.py`, `DriveService.authenticate`)

Six methods are tried in source order; each is wrapped in its own
try/except.  In methods 3 and 4 the assignment to `creds` happens
before the refresh call, so a failing refresh logs an error but leaves
the already-assigned (expired) credential object bound; execution then
skips every later method because `creds` is no longer `None`.  Method 6
parses `GOOGLE_OAUTH_CREDENTIALS_JSON` but only logs warnings and never
assigns `creds`.  (Method 5 additionally writes the token cache file on
success; that filesystem effect does not feed back into the resolved
value and is not modelled.)
-/

/-- Credential material: an identity for the underlying token, the
`expired` flag and whether a refresh token is attached. -/
structure Cred where
  tag : Nat
  expired : Bool
  hasRefreshToken : Bool
deriving DecidableEq, Repr

/-- A successful `creds.refresh(Request())`: same material, no longer
expired. -/
def refreshCred (c : Cred) : Cred := { c with expired := false }

/-- The six resolution strategies, in source order. -/
inductive Strategy where
  | saEnv | saFile | tokEnv | tokFile | interactive | oauthEnv
deriving DecidableEq, Repr

/-- Environment and filesystem state for one `authenticate` run.  For
each credential source, `none` means the source is absent (unset
environment variable / missing file) so the method body is skipped;
`some none` means the attempt raises and is caught (parse failure, or a
failing interactive flow); `some (some c)` means the construction
yields `c`.  The two `RefreshOk` flags tell whether the network refresh
call of methods 3 and 4 succeeds when one is made.  `oauthEnvVar`
records only whether the variable is set: method 6 never yields a
credential. -/
structure AuthWorld where
  saEnvVar : Option (Option Cred)
  saFileVar : Option (Option Cred)
  tokEnvVar : Option (Option Cred)
  tokEnvRefreshOk : Bool
  tokFileVar : Option (Option Cred)
  tokFileRefreshOk : Bool
  credsFileVar : Option (Option Cred)
  oauthEnvVar : Option Bool
deriving DecidableEq, Repr

/-- Methods 3 and 4: deserialize a token bundle, then refresh when it
is expired and has a refresh token.  When the refresh raises, the
except clause only logs: the expired object assigned just before stays
bound. -/
def tokenStep (parse : Option Cred) (refreshOk : Bool) : Option Cred :=
  match parse with
  | none => none
  | some t =>
    if t.expired && t.hasRefreshToken then
      if refreshOk then some (refreshCred t) else some t
    else some t

/-- `DriveService.authenticate`: the resolved credential, if any, and
the methods whose body actually ran, in execution order. -/
def authenticate (w : AuthWorld) : Option Cred × List Strategy :=
  -- Method 1: service account from GOOGLE_SERVICE_ACCOUNT_JSON
  let step1 : Option Cred × List Strategy :=
    match w.saEnvVar with
    | some parse => (parse, [Strategy.saEnv])
    | none => (none, [])
  -- Method 2: service account from backend/config/service_account.json
  let step2 : Option Cred × List Strategy :=
    match step1.1, w.saFileVar with
    | none, some parse => (parse, step1.2 ++ [Strategy.saFile])
    | c, _ => (c, step1.2)
  -- Method 3: token bundle from GOOGLE_OAUTH_TOKEN_JSON
  let step3 : Option Cred × List Strategy :=
    match step2.1, w.tokEnvVar with
    | none, some parse =>
      (tokenStep parse w.tokEnvRefreshOk, step2.2 ++ [Strategy.tokEnv])
    | c, _ => (c, step2.2)
  -- Method 4: token bundle from backend/config/token.json
  let step4 : Option Cred × List Strategy :=
    match step3.1, w.tokFileVar with
    | none, some parse =>
      (tokenStep parse w.tokFileRefreshOk, step3.2 ++ [Strategy.tokFile])
    | c, _ => (c, step3.2)
  -- Method 5: interactive flow from backend/config/credentials.json
  let step5 : Option Cred × List Strategy :=
    match step4.1, w.credsFileVar with
    | none, some parse => (parse, step4.2 ++ [Strategy.interactive])
    | c, _ => (c, step4.2)
  -- Method 6: GOOGLE_OAUTH_CREDENTIALS_JSON — warnings only, never assigns
  let step6 : Option Cred × List Strategy :=
    match step5.1, w.oauthEnvVar with
    | none, some _ => (none, step5.2 ++ [Strategy.oauthEnv])
    | c, _ => (c, step5.2)
  step6

/-- `self.service is not None` after `__init__`: the service is built
exactly when `authenticate` resolved a credential. -/
def serviceUp (w : AuthWorld) : Bool := (authenticate w).1.isSome

/-! ### Claim theorem: the resolution chain -/

/-- The configuration exhibiting the divergence of C2: methods 1 and 2
unavailable; `GOOGLE_OAUTH_TOKEN_JSON` holds an expired token with a
refresh token whose refresh call is rejected by the provider; the local
`token.json` holds a fresh token. -/
def c2World : AuthWorld :=
  { saEnvVar := none, saFileVar := none,
    tokEnvVar := some (some { tag := 0, expired := true, hasRefreshToken := true }),
    tokEnvRefreshOk := false,
    tokFileVar := some (some { tag := 1, expired := false, hasRefreshToken := false }),
    tokFileRefreshOk := true,
    credsFileVar := none, oauthEnvVar := none }

/-- C2: when method 3 deserializes an expired token and the refresh
call fails — a failing strategy per the spec (`RefreshFailed`) — the
code does not fall through to method 4: the expired credential object
stays bound and is used, method 4 (which would have yielded a fresh
credential) is never attempted. -/
theorem c2_refresh_failure_keeps_expired_credential :
    (authenticate c2World).1
        = some { tag := 0, expired := true, hasRefreshToken := true } ∧
    ((authenticate c2World).1.map Cred.expired = some true) ∧
    (authenticate c2World).2 = [Strategy.tokEnv] ∧
    tokenStep (some { tag := 1, expired := false, hasRefreshToken := false })
        c2World.tokFileRefreshOk
      = some { tag := 1, expired := false, hasRefreshToken := false } := by
  decide

/-! ## Upload orchestration (`drive_service.py`)

`upload_file` checks `self.service`, then `os.path.exists(file_path)`
(and nothing else about the payload), computes the metadata (name,
timestamped description, parent folder from the argument or the
config), performs one `files().create(...).execute()` call, optionally
deletes the local file when the config flag is truthy (a failing
deletion is only logged), and returns the normalized dict.  The error
strings are those of the source: `'Not authenticated'`, `'File not
found'`, and `str(e)` of a provider failure.
-/

/-- The fields the code requests from the provider response
(`fields='id,name,webViewLink'`). -/
structure ProviderFile where
  id : String
  name : String
  webViewLink : String
deriving DecidableEq, Repr

/-- The dict returned by `upload_file`. -/
inductive UploadResult where
  | success (file_id file_name web_link : String)
  | failure (error : String)
deriving DecidableEq, Repr

/-- One `upload_file` call, observed: the returned dict, the number of
provider calls made, the parent list sent with the metadata, and
whether a local deletion was attempted / succeeded. -/
structure UploadOutcome where
  result : UploadResult
  providerCalls : Nat
  sentParents : List JVal
  removeAttempted : Bool
  removed : Bool
deriving DecidableEq, Repr

/-- Python truthiness of a config value. -/
def jvTruthy : JVal → Bool
  | JVal.str s => !(s == "")
  | JVal.bool b => b

/-- Truthiness of `self.config.get(k)` (missing key → `None` → falsy). -/
def optTruthy : Option JVal → Bool
  | some v => jvTruthy v
  | none => false

/-- Python `folder_id or self.config.get('folder_id')`: the first
operand when truthy, else the second. -/
def pyOrElse (a b : Option JVal) : Option JVal :=
  match a with
  | some v => if jvTruthy v then some v else b
  | none => b

/-- State consumed by one `upload_file` call: `authenticated` is
`self.service is not None`; `pathExists`/`fileSize` describe the local
filesystem (the code never consults the size); `providerCreate` is the
outcome of the `files().create` call if one is made; `removeOk` tells
whether `os.remove` on the local path would succeed; `config` is
`self.config`. -/
structure UploadWorld where
  authenticated : Bool
  pathExists : String → Bool
  fileSize : String → Nat
  providerCreate : Except String ProviderFile
  removeOk : Bool
  config : Dict JVal

/-- `DriveService.upload_file(file_path, folder_id)`. -/
def upload_file (w : UploadWorld) (file_path : String)
    (folder_id : Option String) : UploadOutcome :=
  if !w.authenticated then
    { result := UploadResult.failure "Not authenticated", providerCalls := 0,
      sentParents := [], removeAttempted := false, removed := false }
  else if !(w.pathExists file_path) then
    { result := UploadResult.failure "File not found", providerCalls := 0,
      sentParents := [], removeAttempted := false, removed := false }
  else
    let target := pyOrElse (folder_id.map JVal.str) (dlookup "folder_id" w.config)
    let parents : List JVal := if optTruthy target then target.toList else []
    match w.providerCreate with
    | Except.error e =>
      { result := UploadResult.failure e, providerCalls := 1,
        sentParents := parents, removeAttempted := false, removed := false }
    | Except.ok f =>
      let deleteCfg := optTruthy (dlookup "delete_after_upload" w.config)
      { result := UploadResult.success f.id f.name f.webViewLink,
        providerCalls := 1, sentParents := parents,
        removeAttempted := deleteCfg, removed := deleteCfg && w.removeOk }

/-- Provider folder entry as read from the listing response
(`files(id, name, parents)`; `parents` may be absent). -/
structure FolderRaw where
  id : String
  name : String
  parents : Option (List String)
deriving DecidableEq, Repr

/-- The projection `get_folders` returns. -/
structure FolderRef where
  id : String
  name : String
  parents : List String
deriving DecidableEq, Repr

/-- `DriveService.get_folders(parent_id)`: `[]` with no provider call
when unauthenticated; `[]` when the provider call raises; otherwise the
id/name/parents projection (missing parents become `[]`).  The second
component counts provider calls.  `parent_id` only narrows the query
string sent with the single call. -/
def get_folders (authenticated : Bool)
    (listing : Except String (List FolderRaw)) (parent_id : Option String) :
    List FolderRef × Nat :=
  if !authenticated then ([], 0)
  else
    match listing with
    | Except.error _ => ([], 1)
    | Except.ok fs =>
      (fs.map (fun f =>
        { id := f.id, name := f.name, parents := f.parents.getD [] }), 1)

/-- The dict returned by `create_folder`. -/
inductive CreateFolderResult where
  | success (folder_id folder_name : String)
  | failure (error : String)
deriving DecidableEq, Repr

/-- `DriveService.create_folder(folder_name, parent_id)`. -/
def create_folder (authenticated : Bool)
    (providerCreate : Except String (String × String))
    (folder_name : String) (parent_id : Option String) :
    CreateFolderResult × Nat :=
  if !authenticated then (CreateFolderResult.failure "Not authenticated", 0)
  else
    match providerCreate with
    | Except.error e => (CreateFolderResult.failure e, 1)
    | Except.ok pr => (CreateFolderResult.success pr.1 pr.2, 1)

/-- The `user` object of the `about().get(fields='user')` response. -/
structure UserRaw where
  email : Option String
  name : Option String
  photo : Option String
deriving DecidableEq, Repr

/-- The dict returned by `get_user_info`. -/
inductive UserInfoResult where
  | info (email name photo : Option String)
  | err (error : String)
deriving DecidableEq, Repr

/-- `DriveService.get_user_info()`. -/
def get_user_info (authenticated : Bool) (about : Except String UserRaw) :
    UserInfoResult × Nat :=
  if !authenticated then (UserInfoResult.err "Not authenticated", 0)
  else
    match about with
    | Except.error e => (UserInfoResult.err e, 1)
    | Except.ok u => (UserInfoResult.info u.email u.name u.photo, 1)

/-! ### Claim theorems: upload orchestration -/

/-- World for the C3 counterexample: authenticated, the path
`data/empty.pdf` exists with size 0, the provider accepts the call. -/
def c3World : UploadWorld :=
  { authenticated := true,
    pathExists := fun p => p == "data/empty.pdf",
    fileSize := fun _ => 0,
    providerCreate := Except.ok
      { id := "f1", name := "empty.pdf", webViewLink := "http://link" },
    removeOk := true, config := default_config }

/-- World for the C3 counterexample, unauthenticated variant with no
files at all. -/
def c3WorldUnauth : UploadWorld :=
  { authenticated := false,
    pathExists := fun _ => false,
    fileSize := fun _ => 0,
    providerCreate := Except.error "unused",
    removeOk := true, config := default_config }

/-- C3, counterexample: (i) an existing but empty payload is not a
`PayloadNotFound` failure — the provider is called once; (ii) with a
missing payload while unauthenticated the result is `Not
authenticated`, not `File not found`. -/
theorem c3_counterexample :
    (c3World.pathExists "data/empty.pdf" = true ∧
     c3World.fileSize "data/empty.pdf" = 0 ∧
     (upload_file c3World "data/empty.pdf" none).providerCalls = 1 ∧
     (upload_file c3World "data/empty.pdf" none).result
        ≠ UploadResult.failure "File not found") ∧
    (upload_file c3WorldUnauth "missing.pdf" none).result
        = UploadResult.failure "Not authenticated" := by
  decide

/-- C3 (amended): while authenticated, an upload whose payload path
does not exist returns the `File not found` (`PayloadNotFound`) failure
and makes no provider call; the check is bare existence, so an existing
empty file is not rejected, and when unauthenticated the authentication
failure takes precedence. -/
theorem c3_missing_payload (w : UploadWorld) (p : String) (fid : Option String)
    (hauth : w.authenticated = true) (hmiss : w.pathExists p = false) :
    upload_file w p fid =
      { result := UploadResult.failure "File not found", providerCalls := 0,
        sentParents := [], removeAttempted := false, removed := false } := by
  simp [upload_file, hauth, hmiss]

/-- Witness for C3 at the world of the counterexample and a path that
does not exist there. -/
theorem c3_missing_payload_witness :
    upload_file c3World "data/absent.pdf" none =
      { result := UploadResult.failure "File not found", providerCalls := 0,
        sentParents := [], removeAttempted := false, removed := false } :=
  c3_missing_payload c3World "data/absent.pdf" none (by decide) (by decide)

/-- C4: when the whole resolution chain yields no credential, an upload
returns the `Not authenticated` failure with no provider call, and the
dependent read operations short-circuit the same way — folder listing,
folder creation and user info each make zero provider calls. -/
theorem c4_unauthenticated_short_circuit (aw : AuthWorld)
    (hfail : (authenticate aw).1 = none) (w : UploadWorld)
    (hlink : w.authenticated = serviceUp aw)
    (p : String) (fid : Option String) (parent : Option String)
    (listing : Except String (List FolderRaw))
    (fc : Except String (String × String)) (nm : String)
    (about : Except String UserRaw) :
    upload_file w p fid =
      { result := UploadResult.failure "Not authenticated", providerCalls := 0,
        sentParents := [], removeAttempted := false, removed := false } ∧
    get_folders (serviceUp aw) listing parent = ([], 0) ∧
    create_folder (serviceUp aw) fc nm parent
      = (CreateFolderResult.failure "Not authenticated", 0) ∧
    get_user_info (serviceUp aw) about
      = (UserInfoResult.err "Not authenticated", 0) := by
  have hsvc : serviceUp aw = false := by
    simp [serviceUp, hfail]
  rw [hsvc] at hlink
  refine ⟨?_, ?_, ?_, ?_⟩
  · simp [upload_file, hlink]
  · simp [get_folders, hsvc]
  · simp [create_folder, hsvc]
  · simp [get_user_info, hsvc]

/-- The empty environment: every credential source absent. -/
def emptyAuthWorld : AuthWorld :=
  { saEnvVar := none, saFileVar := none, tokEnvVar := none,
    tokEnvRefreshOk := true, tokFileVar := none, tokFileRefreshOk := true,
    credsFileVar := none, oauthEnvVar := none }

/-- Witness for C4 at the empty environment. -/
theorem c4_unauthenticated_short_circuit_witness :
    upload_file
        { authenticated := serviceUp emptyAuthWorld,
          pathExists := fun _ => true, fileSize := fun _ => 10,
          providerCreate := Except.error "unused", removeOk := true,
          config := default_config } "invoice.pdf" none =
      { result := UploadResult.failure "Not authenticated", providerCalls := 0,
        sentParents := [], removeAttempted := false, removed := false } ∧
    get_folders (serviceUp emptyAuthWorld) (Except.ok []) none = ([], 0) ∧
    create_folder (serviceUp emptyAuthWorld) (Except.ok ("id", "nm")) "nm" none
      = (CreateFolderResult.failure "Not authenticated", 0) ∧
    get_user_info (serviceUp emptyAuthWorld) (Except.ok ⟨none, none, none⟩)
      = (UserInfoResult.err "Not authenticated", 0) :=
  c4_unauthenticated_short_circuit emptyAuthWorld (by decide) _ (by decide)
    "invoice.pdf" none none (Except.ok []) (Except.ok ("id", "nm")) "nm"
    (Except.ok ⟨none, none, none⟩)

/-- C5: listing folders while no credential is resolved returns the
empty collection — a plain value, not a raised fault and not an error
dict — and performs no provider call. -/
theorem c5_get_folders_unauthenticated (aw : AuthWorld)
    (hfail : (authenticate aw).1 = none)
    (listing : Except String (List FolderRaw)) (parent : Option String) :
    get_folders (serviceUp aw) listing parent = ([], 0) := by
  have hsvc : serviceUp aw = false := by
    simp [serviceUp, hfail]
  simp [get_folders, hsvc]

/-- Witness for C5 at the empty environment. -/
theorem c5_get_folders_unauthenticated_witness :
    get_folders (serviceUp emptyAuthWorld)
      (Except.ok [{ id := "a", name := "b", parents := none }]) (some "root")
      = ([], 0) :=
  c5_get_folders_unauthenticated emptyAuthWorld (by decide)
    (Except.ok [{ id := "a", name := "b", parents := none }]) (some "root")

/-- C6: on a provider success with the delete-after-upload flag set, a
failing local deletion leaves the overall result a success carrying the
provider-assigned id, name and link; the deletion was attempted and
failed, and only one provider call was made. -/
theorem c6_delete_failure_keeps_success (w : UploadWorld) (p : String)
    (fid : Option String) (f : ProviderFile)
    (hauth : w.authenticated = true) (hex : w.pathExists p = true)
    (hprov : w.providerCreate = Except.ok f)
    (hdel : optTruthy (dlookup "delete_after_upload" w.config) = true)
    (hrm : w.removeOk = false) :
    (upload_file w p fid).result = UploadResult.success f.id f.name f.webViewLink ∧
    (upload_file w p fid).removeAttempted = true ∧
    (upload_file w p fid).removed = false ∧
    (upload_file w p fid).providerCalls = 1 := by
  simp [upload_file, hauth, hex, hprov, hdel, hrm]

/-- Config record with the delete-after-upload flag set. -/
def deleteConfig : Dict JVal :=
  [("folder_id", JVal.str ""), ("auto_upload", JVal.bool true),
   ("delete_after_upload", JVal.bool true)]

/-- Witness for C6: provider success, deletion flag set, deletion
fails, result still the provider success. -/
theorem c6_delete_failure_keeps_success_witness :
    (upload_file
        { authenticated := true, pathExists := fun _ => true,
          fileSize := fun _ => 42,
          providerCreate := Except.ok
            { id := "f9", name := "inv.pdf", webViewLink := "http://l" },
          removeOk := false, config := deleteConfig } "inv.pdf" none).result
      = UploadResult.success "f9" "inv.pdf" "http://l" :=
  (c6_delete_failure_keeps_success
    { authenticated := true, pathExists := fun _ => true,
      fileSize := fun _ => 42,
      providerCreate := Except.ok
        { id := "f9", name := "inv.pdf", webViewLink := "http://l" },
      removeOk := false, config := deleteConfig } "inv.pdf" none
    { id := "f9", name := "inv.pdf", webViewLink := "http://l" }
    (by decide) (by decide) rfl (by decide) (by decide)).1

/-! ## Temp-file staging (`server.py`, `upload_to_drive`, base64 branch)

```python
file_bytes = base64.b64decode(file_data)          # 400 on failure
...
with open(temp_file_path, 'wb') as f:
    f.write(file_bytes)
result = drive_service.upload_file(temp_file_path)
try:
    os.remove(temp_file_path)
except:
    pass
```

The cleanup runs only when `upload_file` returns normally; any
exception between file creation and cleanup — e.g. a failing
`f.write` — propagates to the outer handler (HTTP 500) with the staged
file still on disk, and a failing `os.remove` is swallowed by the bare
except with the file left behind.  When the DriveService config enables
delete-after-upload, `upload_file` itself may already have removed the
staged file, in which case the final `os.remove` raises
`FileNotFoundError` and is swallowed harmlessly.
-/

/-- The HTTP response of the route, reduced to status, success flag and
error string. -/
structure HttpResponse where
  status : Nat
  success : Bool
  error : Option String
deriving DecidableEq, Repr

/-- One run of the base64 branch: `decodeOk` is the `b64decode` call;
`openOk` is `open(temp_file_path, 'wb')` itself (failure creates no
file); `writeOk` is `f.write(file_bytes)` (failure leaves the created
file and raises to the outer handler); `upload` is the outcome of
`drive_service.upload_file` on the staged path (`upload.removed` tells
whether it already deleted the file via delete-after-upload);
`cleanupRemoveOk` is the final `os.remove` when the file is still
there; `stageError` is the `str(e)` of a staging exception. -/
structure StagingWorld where
  decodeOk : Bool
  openOk : Bool
  writeOk : Bool
  upload : UploadOutcome
  cleanupRemoveOk : Bool
  stageError : String
deriving DecidableEq, Repr

/-- The base64 branch of `/api/upload-to-drive`: the HTTP response and
whether the staged temp file is still on disk when the request
completes. -/
def base64UploadBranch (w : StagingWorld) : HttpResponse × Bool :=
  if !w.decodeOk then
    ({ status := 400, success := false, error := some "Invalid base64 data" },
     false)
  else if !w.openOk then
    ({ status := 500, success := false, error := some w.stageError }, false)
  else if !w.writeOk then
    ({ status := 500, success := false, error := some w.stageError }, true)
  else
    let tempLeft := !(w.upload.removed || w.cleanupRemoveOk)
    match w.upload.result with
    | UploadResult.success fid _ link =>
      ({ status := 200, success := true, error := none }, tempLeft)
    | UploadResult.failure e =>
      ({ status := 500, success := false, error := some e }, tempLeft)

/-! ### Claim theorems: temp-file staging -/

/-- A provider-success upload outcome that did not itself delete the
staged file. -/
def okUpload : UploadOutcome :=
  { result := UploadResult.success "f1" "n.pdf" "http://l", providerCalls := 1,
    sentParents := [], removeAttempted := false, removed := false }

/-- C8, counterexample: (i) a failing `f.write` (e.g. disk full) raises
past the cleanup and the staged temp file is left behind; (ii) on a
normal provider success, a failing final `os.remove` is swallowed and
the temp file is also left behind. -/
theorem c8_counterexample :
    (base64UploadBranch
       { decodeOk := true, openOk := true, writeOk := false,
         upload := okUpload, cleanupRemoveOk := true,
         stageError := "disk full" }).2 = true ∧
    (base64UploadBranch
       { decodeOk := true, openOk := true, writeOk := true,
         upload := okUpload, cleanupRemoveOk := false,
         stageError := "" }).2 = true := by
  decide

/-- C8 (amended): deletion of the staged temp file is best-effort, not
scoped: on the exit paths where staging completed and `upload_file`
returned — provider success or provider error alike — the temp file is
gone provided the final removal succeeds or the upload itself already
deleted it; an exception while writing the staged bytes, or a failing
final removal, leaves the file behind. -/
theorem c8_staged_cleanup (w : StagingWorld)
    (hd : w.decodeOk = true) (ho : w.openOk = true) (hw : w.writeOk = true)
    (hc : (w.upload.removed || w.cleanupRemoveOk) = true) :
    (base64UploadBranch w).2 = false := by
  unfold base64UploadBranch
  rw [hd, ho, hw]
  cases hr : w.upload.result <;> simp [hc]

/-- Witness for C8: a completed staging with a provider success and a
succeeding final removal. -/
theorem c8_staged_cleanup_witness :
    (base64UploadBranch
       { decodeOk := true, openOk := true, writeOk := true,
         upload := okUpload, cleanupRemoveOk := true, stageError := "" }).2
      = false :=
  c8_staged_cleanup
    { decodeOk := true, openOk := true, writeOk := true,
      upload := okUpload, cleanupRemoveOk := true, stageError := "" }
    (by decide) (by decide) (by decide) (by decide)
